import Mathlib

/-!
Verification of the sensor-dashboard vitals access layer and query template
engine, shallowly embedded from the Python source.

Source files embedded:
* `src/pages/vitals.py` — `VitalsRepository.get_latest`, `VitalsRepository.save`,
  `VitalsRepository._get_changed_vitals`, `VitalsSession._safely_set_vital`,
  `VitalsSession.initialize_if_needed`, `VitalsUI.render_blood_pressure_slider`,
  `main`, `Config`, `DEFAULT_VITALS`.
* `src/influxdb/scripts.py` and `src/influx/scripts.py` — `load_script_template`,
  `run_script` (both copies share the relevant logic: `Template(...).substitute`
  runs before the `with client:` block that dispatches the query).

Numeric values are modelled as exact rationals (`ℚ`); Python `float()` applied
to a numeric cell is the identity on the modelled value, Python `int()` is
truncation toward zero (`pyInt`). Exceptions are modelled with `Except`/`Option`.
-/

/-- Identifiers of the six tracked metrics, the keys of `DEFAULT_VITALS` in
`src/pages/vitals.py`. -/
inductive VitalKey where
  | temperature
  | systolic
  | diastolic
  | heart_rate
  | respiration_rate
  | oxygen_saturation
  deriving DecidableEq, Repr

/-- Iteration order of `DEFAULT_VITALS.keys()` (Python dicts preserve insertion
order), used by the per-field loop in `get_latest`. -/
def allVitalKeys : List VitalKey :=
  [VitalKey.temperature, VitalKey.systolic, VitalKey.diastolic,
   VitalKey.heart_rate, VitalKey.respiration_rate, VitalKey.oxygen_saturation]

/-- The `DEFAULT_VITALS` mapping of `src/pages/vitals.py` (lines 62-69). -/
def DEFAULT_VITALS : VitalKey → ℚ
  | VitalKey.temperature => 97.5
  | VitalKey.systolic => 125
  | VitalKey.diastolic => 60
  | VitalKey.heart_rate => 55
  | VitalKey.respiration_rate => 12
  | VitalKey.oxygen_saturation => 95

/-- The dictionary `dict(DEFAULT_VITALS)` returned by `get_latest` on the
fallback paths, as an association list in insertion order. -/
def defaultsList : List (VitalKey × ℚ) :=
  allVitalKeys.map (fun k => (k, DEFAULT_VITALS k))

/-- One cell of the fetched row, as seen by `latest_record.get(key)`:
`missing` covers an absent column, `None`, or NaN (`pd.notna` fails);
`numeric` is a value Python `float()`/`int()` converts successfully;
`nonNumeric` is a present, non-null value on which the conversion raises. -/
inductive CellValue where
  | missing
  | numeric (q : ℚ)
  | nonNumeric
  deriving DecidableEq, Repr

/-- Python `int()` applied to a real value: truncation toward zero. -/
def pyInt (q : ℚ) : ℤ :=
  if 0 ≤ q then ⌊q⌋ else ⌈q⌉

/-- One iteration of the per-key loop in `get_latest` (vitals.py lines 92-97):
a present numeric value is converted with `float` for temperature and `int`
otherwise, a missing/NaN value falls back to `DEFAULT_VITALS[key]`, and a
non-numeric value makes the conversion raise (modelled as `Except.error`). -/
def convertCell (k : VitalKey) (c : CellValue) : Except Unit ℚ :=
  match c with
  | CellValue.missing => Except.ok (DEFAULT_VITALS k)
  | CellValue.numeric q =>
      Except.ok (if k = VitalKey.temperature then q else ((pyInt q : ℤ) : ℚ))
  | CellValue.nonNumeric => Except.error ()

/-- The whole per-key loop of `get_latest` over a fetched row. A conversion
error aborts the loop (the Python exception propagates to the handler). -/
def extractRow : List VitalKey → (VitalKey → CellValue) → Except Unit (List (VitalKey × ℚ))
  | [], _ => Except.ok []
  | k :: ks, r =>
    match convertCell k (r k) with
    | Except.error e => Except.error e
    | Except.ok q =>
      match extractRow ks r with
      | Except.error e => Except.error e
      | Except.ok rest => Except.ok ((k, q) :: rest)

/-- Outcome of `run_script('latest_vitals.flux')` as observed by `get_latest`:
`error` covers both a raised exception and a `None` result (query failure),
`empty` an empty DataFrame, and `row` the last record of a non-empty one. -/
inductive QueryResult where
  | error
  | empty
  | row (r : VitalKey → CellValue)

/-- `VitalsRepository.get_latest` (vitals.py lines 75-103): on a non-empty
result the per-key loop builds the vitals dictionary; any exception (endpoint
failure or non-numeric cell) and the empty/absent result fall back to
`dict(DEFAULT_VITALS)`. -/
def get_latest (qr : QueryResult) : List (VitalKey × ℚ) :=
  match qr with
  | QueryResult.row r =>
    match extractRow allVitalKeys r with
    | Except.ok v => v
    | Except.error _ => defaultsList
  | QueryResult.error => defaultsList
  | QueryResult.empty => defaultsList

/-- Dictionary lookup `latest_vitals.get(key)` on the association list. -/
def findVal (k : VitalKey) : List (VitalKey × ℚ) → Option ℚ
  | [] => none
  | (k0, v) :: rest => if k = k0 then some v else findVal k rest

/-- `VitalsSession._safely_set_vital` (vitals.py lines 223-239): applies the
type converter (`float` for temperature, `int` otherwise), then replaces a
temperature outside [80, 120] or a heart rate outside [0, 300] by the default;
a missing value or a conversion failure also yields the default. -/
def safely_set_vital (k : VitalKey) (value : Option ℚ) (dflt : ℚ) : ℚ :=
  match value with
  | none => dflt
  | some v =>
    let cv : ℚ := if k = VitalKey.temperature then v else ((pyInt v : ℤ) : ℚ)
    if k = VitalKey.temperature ∧ (cv < 80 ∨ 120 < cv) then dflt
    else if k = VitalKey.heart_rate ∧ (cv < 0 ∨ 300 < cv) then dflt
    else cv

/-- The session-load pipeline `VitalsSession.initialize_if_needed`
(vitals.py lines 174-221): fetch via `get_latest`, then install each metric
into the session through `_safely_set_vital` with its `DEFAULT_VITALS`
fallback. -/
def load_session_vitals (qr : QueryResult) (k : VitalKey) : ℚ :=
  safely_set_vital k (findVal k (get_latest qr)) (DEFAULT_VITALS k)

/-- The five change-tracking flags of `SessionKeys` (vitals.py lines 42-46);
blood pressure shares the single flag `BP_CHANGED`. -/
structure ChangeFlags where
  temperature_changed : Bool
  bp_changed : Bool
  heart_rate_changed : Bool
  respiration_rate_changed : Bool
  oxygen_saturation_changed : Bool
  deriving DecidableEq, Repr

/-- The `vitals_data` dictionary assembled in `main` (vitals.py lines 589-596). -/
structure VitalsData where
  temperature : ℚ
  systolic : ℚ
  diastolic : ℚ
  heart_rate : ℚ
  respiration_rate : ℚ
  oxygen_saturation : ℚ
  deriving DecidableEq, Repr

/-- `VitalsRepository._get_changed_vitals` (vitals.py lines 147-168): the
write set, in the source's insertion order; the `BP_CHANGED` flag adds both
`systolic` and `diastolic`. -/
def get_changed_vitals (flags : ChangeFlags) (d : VitalsData) : List (VitalKey × ℚ) :=
  (if flags.temperature_changed then [(VitalKey.temperature, d.temperature)] else []) ++
  (if flags.bp_changed then
      [(VitalKey.systolic, d.systolic), (VitalKey.diastolic, d.diastolic)] else []) ++
  (if flags.heart_rate_changed then [(VitalKey.heart_rate, d.heart_rate)] else []) ++
  (if flags.respiration_rate_changed then
      [(VitalKey.respiration_rate, d.respiration_rate)] else []) ++
  (if flags.oxygen_saturation_changed then
      [(VitalKey.oxygen_saturation, d.oxygen_saturation)] else [])

/-- Whether the synchronous endpoint write acknowledges or raises. -/
inductive WriteOutcome where
  | ack
  | failure
  deriving DecidableEq, Repr

/-- Result of `VitalsRepository.save`: the returned boolean and the points the
endpoint accepted (each point is the list of its fields). -/
structure SaveResult where
  success : Bool
  written : List (List (VitalKey × ℚ))
  deriving DecidableEq, Repr

/-- `VitalsRepository.save` (vitals.py lines 105-145): an empty write set
returns `True` with no network effect; otherwise one point holding exactly the
changed fields is written synchronously, `True` on acknowledgment, and any
exception is caught and turned into `False` with nothing durably written. -/
def save (flags : ChangeFlags) (d : VitalsData) (w : WriteOutcome) : SaveResult :=
  let changed := get_changed_vitals flags d
  if changed.isEmpty then { success := true, written := [] }
  else
    match w with
    | WriteOutcome.ack => { success := true, written := [changed] }
    | WriteOutcome.failure => { success := false, written := [] }

/-- In-memory session baseline: the six vital values and the change flags. -/
structure Session where
  vitals : VitalsData
  flags : ChangeFlags
  deriving DecidableEq, Repr

/-- The all-false flag state set by `VitalsSession._initialize_change_flags`. -/
def noChanges : ChangeFlags :=
  { temperature_changed := false, bp_changed := false, heart_rate_changed := false,
    respiration_rate_changed := false, oxygen_saturation_changed := false }

/-- The submit branch of `main` (vitals.py lines 587-613): on a successful
`save`, `update_vitals_after_save` adopts the candidate values and resets the
flags; on failure nothing touches the session state. -/
def submit (s : Session) (d : VitalsData) (w : WriteOutcome) : Session × Bool :=
  if (save s.flags d w).success then ({ vitals := d, flags := noChanges }, true)
  else (s, false)

/-- One chunk of a parsed query template: literal text or a named
placeholder (`string.Template` syntax, `$` followed by a braced name). -/
inductive Chunk where
  | lit (s : String)
  | placeholder (n : String)
  deriving DecidableEq, Repr

/-- Names of the placeholders of a template, left to right. -/
def placeholderNames : List Chunk → List String
  | [] => []
  | Chunk.lit _ :: rest => placeholderNames rest
  | Chunk.placeholder n :: rest => n :: placeholderNames rest

/-- Lookup in the keyword-argument mapping passed to `substitute`. -/
def lookupStr (n : String) : List (String × String) → Option String
  | [] => none
  | (k, v) :: rest => if n = k then some v else lookupStr n rest

/-- Python `string.Template.substitute`: scans the template left to right,
replaces every placeholder by its bound value, and raises `KeyError` (here
`Except.error` carrying the name) at the first placeholder absent from the
mapping. -/
def substitute : List Chunk → List (String × String) → Except String String
  | [], _ => Except.ok ""
  | Chunk.lit s :: rest, ps =>
    match substitute rest ps with
    | Except.ok out => Except.ok (s ++ out)
    | Except.error n => Except.error n
  | Chunk.placeholder n :: rest, ps =>
    match lookupStr n ps with
    | none => Except.error n
    | some v =>
      match substitute rest ps with
      | Except.ok out => Except.ok (v ++ out)
      | Except.error m => Except.error m

/-- The fully resolved query text: literal chunks verbatim, every placeholder
chunk replaced by its bound parameter value (so no placeholder survives). -/
def resolveAll : List Chunk → List (String × String) → String
  | [], _ => ""
  | Chunk.lit s :: rest, ps => s ++ resolveAll rest ps
  | Chunk.placeholder n :: rest, ps => (lookupStr n ps).getD "" ++ resolveAll rest ps

/-- `load_script_template` (src/influxdb/scripts.py lines 17-27): reads the
named file from the template store; a missing or unreadable file is caught,
logged, and the function falls through returning `None` (here `none`). -/
def load_script_template (store : List (String × List Chunk)) : String → Option (List Chunk) :=
  fun name =>
    match store with
    | [] => none
    | (k, t) :: rest =>
      if name = k then some t else load_script_template rest name

/-- Errors `run_script` can raise: `templateNone` is the `TypeError` from
`Template(None).substitute(...)` when the template failed to load, and
`missingKey` the `KeyError` from `substitute` naming the unbound placeholder. -/
inductive ScriptErr where
  | templateNone
  | missingKey (n : String)
  deriving DecidableEq, Repr

/-- Observable outcome of `run_script`: the query strings dispatched to the
endpoint and the returned value (`Except.error` for a raised exception,
`Except.ok none` for a query failure caught and logged inside the `with`
block, `Except.ok (some ())` for a successful DataFrame). -/
structure RunOutcome where
  dispatched : List String
  result : Except ScriptErr (Option Unit)

/-- `run_script` (src/influxdb/scripts.py lines 29-37 and the identical logic
in src/influx/scripts.py): loads the template, substitutes the keyword
arguments — both steps outside any handler, so their exceptions propagate
before anything reaches the endpoint — then dispatches the resolved query
inside `with client`, where an endpoint error is caught and yields `None`. -/
def runScript (store : List (String × List Chunk)) (name : String)
    (ps : List (String × String)) (ep : String → Bool) : RunOutcome :=
  match load_script_template store name with
  | none => { dispatched := [], result := Except.error ScriptErr.templateNone }
  | some t =>
    match substitute t ps with
    | Except.error n => { dispatched := [], result := Except.error (ScriptErr.missingKey n) }
    | Except.ok script =>
      { dispatched := [script],
        result := Except.ok (if ep script then some () else none) }

namespace Config

/-- `Config.INFLUX_BUCKET` (vitals.py line 26). -/
def INFLUX_BUCKET : String := "thermometer"

/-- `Config.CACHE_TTL` (vitals.py line 27), the time-to-live in seconds of the
`st.cache_data` wrapper around `get_latest`. -/
def CACHE_TTL : Nat := 60

end Config

/-- Modelled from the spec: the behavior of the `st.cache_data(ttl=...)`
wrapper (the caching library itself is not part of this repository). A call
at time `now` with cache state `st` returns the cached value when an entry
younger than `ttl` exists, and otherwise fetches, stores, and returns the
fresh value; the boolean records whether an endpoint read was issued. -/
def cached_call (ttl : Nat) (st : Option (Nat × List (VitalKey × ℚ))) (now : Nat)
    (fetch : List (VitalKey × ℚ)) :
    Option (Nat × List (VitalKey × ℚ)) × List (VitalKey × ℚ) × Bool :=
  match st with
  | some (t, v) =>
    if now - t < ttl then (some (t, v), v, false)
    else (some (now, fetch), fetch, true)
  | none => (some (now, fetch), fetch, true)

/-- Number of endpoint reads issued by two consecutive cached `get_latest`
calls at times `t1` and `t2`, starting from an empty cache, with no
intervening write or invalidation. -/
def reads_in_two_calls (ttl t1 t2 : Nat) (v1 v2 : List (VitalKey × ℚ)) : Nat :=
  match cached_call ttl none t1 v1 with
  | (st1, _, r1) =>
    match cached_call ttl st1 t2 v2 with
    | (_, _, r2) => (if r1 then 1 else 0) + (if r2 then 1 else 0)

/-- The normalization step of `VitalsUI.render_blood_pressure_slider`
(vitals.py lines 450-487): a missing/NaN session value falls back to
`DEFAULT_VITALS` (60 diastolic, 125 systolic), and a diastolic at or above the
systolic is clamped to `systolic - 20`; returns `(diastolic, systolic)`. -/
def normalize_blood_pressure (diastolic0 systolic0 : Option Int) : Int × Int :=
  let d := diastolic0.getD 60
  let s := systolic0.getD 125
  let d2 := if d ≥ s then s - 20 else d
  (d2, s)

/-- Concrete fetched row for the counterexample to claim C2: heart rate 300.7,
every other column absent. -/
def rowC2 : VitalKey → CellValue := fun k =>
  match k with
  | VitalKey.heart_rate => CellValue.numeric 300.7
  | _ => CellValue.missing

/-- Concrete fetched row for the witness of the amended claim C2: temperature
130 (out of bounds), heart rate absent. -/
def rowW : VitalKey → CellValue := fun k =>
  match k with
  | VitalKey.temperature => CellValue.numeric 130
  | _ => CellValue.missing

/-- Concrete fetched row for the witness of the amended claim C2, non-numeric
case: systolic non-numeric, heart rate 72, every other column absent. -/
def rowNN : VitalKey → CellValue := fun k =>
  match k with
  | VitalKey.systolic => CellValue.nonNumeric
  | VitalKey.heart_rate => CellValue.numeric 72
  | _ => CellValue.missing

/-- Concrete session for the witness of claim C3: only temperature flagged. -/
def sessionW : Session :=
  { vitals := { temperature := 98, systolic := 120, diastolic := 70,
                heart_rate := 60, respiration_rate := 12, oxygen_saturation := 95 },
    flags := { temperature_changed := true, bp_changed := false, heart_rate_changed := false,
               respiration_rate_changed := false, oxygen_saturation_changed := false } }

/-- Concrete candidate record for the witness of claim C3. -/
def dataW : VitalsData :=
  { temperature := 99.5, systolic := 120, diastolic := 70,
    heart_rate := 60, respiration_rate := 12, oxygen_saturation := 95 }

/-! ## Helper lemmas -/

/-- Membership of every metric key in the iteration order list. -/
theorem mem_allVitalKeys (k : VitalKey) : k ∈ allVitalKeys := by
  cases k <;> decide

/-- A successful row extraction yields exactly the iterated keys, in order. -/
theorem extractRow_ok_keys (ks : List VitalKey) (r : VitalKey → CellValue)
    (v : List (VitalKey × ℚ)) (h : extractRow ks r = Except.ok v) :
    v.map Prod.fst = ks := by
  induction ks generalizing v with
  | nil =>
    simp only [extractRow] at h
    cases h
    rfl
  | cons k ks ih =>
    simp only [extractRow] at h
    cases hc : convertCell k (r k) with
    | error e => rw [hc] at h; cases h
    | ok q =>
      rw [hc] at h
      cases hrest : extractRow ks r with
      | error e => rw [hrest] at h; cases h
      | ok rest =>
        rw [hrest] at h
        cases h
        simp [ih rest hrest]

/-- Lookup in a successfully extracted row returns the converted cell. -/
theorem extractRow_ok_find (ks : List VitalKey) (r : VitalKey → CellValue)
    (v : List (VitalKey × ℚ)) (k : VitalKey) (h : extractRow ks r = Except.ok v)
    (hk : k ∈ ks) :
    findVal k v = (convertCell k (r k)).toOption := by
  induction ks generalizing v with
  | nil => cases hk
  | cons k0 ks ih =>
    simp only [extractRow] at h
    cases hc : convertCell k0 (r k0) with
    | error e => rw [hc] at h; cases h
    | ok q =>
      rw [hc] at h
      cases hrest : extractRow ks r with
      | error e => rw [hrest] at h; cases h
      | ok rest =>
        rw [hrest] at h
        cases h
        by_cases hkk : k = k0
        · subst hkk
          simp [findVal, hc, Except.toOption]
        · have hk' : k ∈ ks := by
            cases hk with
            | head => exact absurd rfl hkk
            | tail _ hmem => exact hmem
          simp [findVal, hkk, ih rest hrest hk']

/-- Lookup in the defaults dictionary returns the per-field default. -/
theorem findVal_defaultsList (k : VitalKey) :
    findVal k defaultsList = some (DEFAULT_VITALS k) := by
  cases k <;> rfl

/-- Python `int()` is the identity on values that are already integers. -/
theorem pyInt_intCast (n : ℤ) : pyInt (n : ℚ) = n := by
  unfold pyInt
  split
  · exact Int.floor_intCast n
  · exact Int.ceil_intCast n

/-! ## Claim theorems -/

/-- Claim C1: with a ChangeSet in which only temperature is flagged changed,
`save` acknowledged by the endpoint writes a single point whose fields are
exactly the temperature field — none of the other five metric fields
(systolic, diastolic, heart_rate, respiration_rate, oxygen_saturation)
appears, for every candidate record. -/
theorem save_temperature_only_point (d : VitalsData) :
    save { temperature_changed := true, bp_changed := false, heart_rate_changed := false,
           respiration_rate_changed := false, oxygen_saturation_changed := false }
        d WriteOutcome.ack =
      { success := true, written := [[(VitalKey.temperature, d.temperature)]] } := rfl

/-- Claim C4: with a ChangeSet in which no metric is flagged changed, `save`
performs zero endpoint writes and returns Success, for every candidate record
and every endpoint behavior. -/
theorem save_no_changes_noop (d : VitalsData) (w : WriteOutcome) :
    save noChanges d w = { success := true, written := [] } := rfl

/-- Claim C3: whenever the write set is non-empty (an endpoint write actually
occurs) and the write fails, `save` returns Failure with nothing written, the
submit path leaves the in-memory session baseline (vital values and change
flags) unchanged, and `save` returns Success exactly when the write
acknowledges. -/
theorem save_failure_preserves_state (s : Session) (d : VitalsData)
    (h : get_changed_vitals s.flags d ≠ []) :
    (save s.flags d WriteOutcome.failure).success = false ∧
    (save s.flags d WriteOutcome.failure).written = [] ∧
    submit s d WriteOutcome.failure = (s, false) ∧
    (∀ w : WriteOutcome, (save s.flags d w).success = true ↔ w = WriteOutcome.ack) := by
  have hne : (get_changed_vitals s.flags d).isEmpty = false := by
    cases hl : get_changed_vitals s.flags d with
    | nil => exact absurd hl h
    | cons a t => rfl
  refine ⟨?_, ?_, ?_, ?_⟩
  · simp [save, hne]
  · simp [save, hne]
  · simp [submit, save, hne]
  · intro w
    cases w <;> simp [save, hne]

/-- Witness for claim C3 at a concrete session and candidate record. -/
theorem save_failure_preserves_state_witness :
    get_changed_vitals sessionW.flags dataW ≠ [] ∧
    submit sessionW dataW WriteOutcome.failure = (sessionW, false) :=
  ⟨by decide, (save_failure_preserves_state sessionW dataW (by decide)).2.2.1⟩

/-- Claim C9: for every ChangeSet and candidate record, the write set computed
by `save` contains the systolic field exactly when it contains the diastolic
field — blood pressure is tracked by the single shared `BP_CHANGED` flag. -/
theorem changed_vitals_bp_paired (flags : ChangeFlags) (d : VitalsData) :
    VitalKey.systolic ∈ (get_changed_vitals flags d).map Prod.fst ↔
    VitalKey.diastolic ∈ (get_changed_vitals flags d).map Prod.fst := by
  obtain ⟨b1, b2, b3, b4, b5⟩ := flags
  cases b1 <;> cases b2 <;> cases b3 <;> cases b4 <;> cases b5 <;>
    simp [get_changed_vitals]

/-- Claim C7: for every loaded or reset pair of session values, after the
blood-pressure normalization the diastolic value is strictly below the
systolic value (a violating record is clamped to `systolic - 20`), and in
particular diastolic 130 with systolic 120 normalizes to diastolic 100. -/
theorem blood_pressure_normalization (d0 s0 : Option Int) :
    (normalize_blood_pressure d0 s0).1 < (normalize_blood_pressure d0 s0).2 ∧
    normalize_blood_pressure (some 130) (some 120) = (100, 120) := by
  constructor
  · unfold normalize_blood_pressure
    cases d0 <;> cases s0 <;> dsimp [Option.getD] <;> (try split) <;> omega
  · decide

/-- Claim C10: `get_latest` is total at the public interface — for every
endpoint outcome (successful row, empty table, or failure) it returns,
without raising (the model is a total function, every Python exception path
being caught into the fallback), a dictionary whose key set is exactly the
six metric identifiers, each bound to a numeric value. -/
theorem get_latest_total_keys (qr : QueryResult) :
    (get_latest qr).map Prod.fst = allVitalKeys := by
  cases qr with
  | error => rfl
  | empty => rfl
  | row r =>
    cases hE : extractRow allVitalKeys r with
    | ok v =>
      have hg : get_latest (QueryResult.row r) = v := by simp [get_latest, hE]
      rw [hg]
      exact extractRow_ok_keys allVitalKeys r v hE
    | error e =>
      have hg : get_latest (QueryResult.row r) = defaultsList := by simp [get_latest, hE]
      rw [hg]
      rfl

/-- Substitution with a mapping binding every placeholder fully resolves the
template: every placeholder chunk is replaced by its bound value. -/
theorem substitute_all_bound (t : List Chunk) (ps : List (String × String))
    (h : ∀ n ∈ placeholderNames t, (lookupStr n ps).isSome) :
    substitute t ps = Except.ok (resolveAll t ps) := by
  induction t with
  | nil => rfl
  | cons c rest ih =>
    cases c with
    | lit s =>
      have hr := ih (fun n hn => h n (by simpa [placeholderNames] using hn))
      simp [substitute, resolveAll, hr]
    | placeholder n =>
      have hn := h n (by simp [placeholderNames])
      obtain ⟨v, hv⟩ := Option.isSome_iff_exists.mp hn
      have hr := ih (fun m hm => h m (by simp [placeholderNames, hm]))
      simp [substitute, resolveAll, hv, hr]

/-- Substitution with a mapping missing some placeholder raises `KeyError`. -/
theorem substitute_missing_name (t : List Chunk) (ps : List (String × String))
    (n : String) (hn : n ∈ placeholderNames t) (hnone : lookupStr n ps = none) :
    ∃ m, substitute t ps = Except.error m := by
  induction t with
  | nil => simp [placeholderNames] at hn
  | cons c rest ih =>
    cases c with
    | lit s =>
      obtain ⟨m, hm⟩ := ih (by simpa [placeholderNames] using hn)
      exact ⟨m, by simp [substitute, hm]⟩
    | placeholder n0 =>
      cases hl : lookupStr n0 ps with
      | none => exact ⟨n0, by simp [substitute, hl]⟩
      | some v =>
        have hn' : n ∈ placeholderNames rest := by
          rcases (by simpa [placeholderNames] using hn : n = n0 ∨ n ∈ placeholderNames rest)
            with h1 | h2
          · subst h1; rw [hl] at hnone; cases hnone
          · exact h2
        obtain ⟨m, hm⟩ := ih hn'
        exact ⟨m, by simp [substitute, hl, hm]⟩

/-- Claim C5: for every loaded template and every parameter mapping supplying
all placeholder names, `run_script` produces a resolved query string in which
every placeholder has been replaced by its bound value and dispatches exactly
that string; and whenever the mapping misses a placeholder name, `run_script`
fails with the `KeyError` from `substitute` before any query is sent to the
endpoint — no query containing a literal placeholder is ever dispatched. -/
theorem run_script_placeholder_resolution (t : List Chunk)
    (ps : List (String × String)) (store : List (String × List Chunk))
    (name : String) (ep : String → Bool)
    (hload : load_script_template store name = some t) :
    ((∀ n ∈ placeholderNames t, (lookupStr n ps).isSome) →
        substitute t ps = Except.ok (resolveAll t ps) ∧
        (runScript store name ps ep).dispatched = [resolveAll t ps]) ∧
    (∀ n, n ∈ placeholderNames t → lookupStr n ps = none →
        (runScript store name ps ep).dispatched = [] ∧
        ∃ m, (runScript store name ps ep).result =
          Except.error (ScriptErr.missingKey m)) := by
  constructor
  · intro hb
    have hs := substitute_all_bound t ps hb
    exact ⟨hs, by simp [runScript, hload, hs]⟩
  · intro n hn hnone
    obtain ⟨m, hm⟩ := substitute_missing_name t ps n hn hnone
    exact ⟨by simp [runScript, hload, hm], m, by simp [runScript, hload, hm]⟩

/-- Witness for claim C5: the spec's own scenario — the template
`range(start: ${start})` with the parameter `start` bound to `-1h` resolves
fully, and a template with an unbound placeholder dispatches nothing. -/
theorem run_script_placeholder_resolution_witness :
    substitute [Chunk.lit "range(start: ", Chunk.placeholder "start", Chunk.lit ")"]
        [("start", "-1h")] = Except.ok "range(start: -1h)" ∧
    (runScript [("r.flux", [Chunk.placeholder "missing_param"])] "r.flux" []
        (fun _ => true)).dispatched = [] := by
  constructor
  · have h := (run_script_placeholder_resolution
      [Chunk.lit "range(start: ", Chunk.placeholder "start", Chunk.lit ")"]
      [("start", "-1h")]
      [("q.flux", [Chunk.lit "range(start: ", Chunk.placeholder "start", Chunk.lit ")"])]
      "q.flux" (fun _ => true) rfl).1 (by decide)
    exact h.1.trans (congrArg Except.ok (by decide))
  · exact ((run_script_placeholder_resolution [Chunk.placeholder "missing_param"] []
      [("r.flux", [Chunk.placeholder "missing_param"])] "r.flux" (fun _ => true)
      rfl).2 "missing_param" (by decide) rfl).1

/-- Claim C6: for a template name whose file is absent or unreadable,
`load_script_template` returns an absent template (after logging), the
subsequent `run_script` call fails before dispatching any query (the
`TypeError` from substituting into the absent template), and the vitals page
handles the raised error cleanly by falling back to the defaults instead of
crashing. -/
theorem run_script_missing_template (store : List (String × List Chunk))
    (name : String) (ps : List (String × String)) (ep : String → Bool)
    (h : load_script_template store name = none) :
    (runScript store name ps ep).dispatched = [] ∧
    (runScript store name ps ep).result = Except.error ScriptErr.templateNone ∧
    get_latest QueryResult.error = defaultsList := by
  refine ⟨?_, ?_, rfl⟩ <;> simp [runScript, h]

/-- Witness for claim C6 at a concrete empty template store. -/
theorem run_script_missing_template_witness :
    load_script_template [] "latest_vitals.flux" = none ∧
    (runScript [] "latest_vitals.flux" [] (fun _ => true)).dispatched = [] :=
  ⟨rfl,
   (run_script_missing_template [] "latest_vitals.flux" [] (fun _ => true) rfl).1⟩

/-- Claim C8: two cached `get_latest` calls within the cache time-to-live
(`Config.CACHE_TTL` = 60 seconds) of each other, with no intervening write or
invalidation, issue exactly one endpoint read — the second call is served
from the cache. The `st.cache_data` wrapper itself is modelled from the spec. -/
theorem get_latest_cache_single_read (qr1 qr2 : QueryResult) (t1 t2 : Nat)
    (h1 : t1 ≤ t2) (h2 : t2 - t1 < Config.CACHE_TTL) :
    reads_in_two_calls Config.CACHE_TTL t1 t2 (get_latest qr1) (get_latest qr2) = 1 := by
  have := h1
  simp [reads_in_two_calls, cached_call, h2]

/-- Witness for claim C8 at concrete call times 0 and 30 seconds. -/
theorem get_latest_cache_single_read_witness :
    reads_in_two_calls Config.CACHE_TTL 0 30 (get_latest QueryResult.error)
      (get_latest QueryResult.error) = 1 :=
  get_latest_cache_single_read QueryResult.error QueryResult.error 0 30
    (by decide) (by decide)

/-- Lookup into the dictionary returned by `get_latest` on a row: either the
extraction succeeded and the lookup is the converted cell, or it failed and
the whole dictionary is the defaults. -/
theorem findVal_get_latest_row (r : VitalKey → CellValue) (k : VitalKey) :
    findVal k (get_latest (QueryResult.row r)) = (convertCell k (r k)).toOption ∨
    get_latest (QueryResult.row r) = defaultsList := by
  cases hE : extractRow allVitalKeys r with
  | ok v =>
    left
    have hg : get_latest (QueryResult.row r) = v := by simp [get_latest, hE]
    rw [hg]
    exact extractRow_ok_find allVitalKeys r v k hE (mem_allVitalKeys k)
  | error e =>
    right
    simp [get_latest, hE]

/-- A non-numeric cell among the iterated keys makes the whole extraction
raise: the per-key loop of `get_latest` aborts at the conversion error. -/
theorem extractRow_error_of_mem (ks : List VitalKey) (r : VitalKey → CellValue)
    (k : VitalKey) (hk : k ∈ ks) (hc : convertCell k (r k) = Except.error ()) :
    extractRow ks r = Except.error () := by
  induction ks with
  | nil => cases hk
  | cons k0 ks ih =>
    cases hc0 : convertCell k0 (r k0) with
    | error e =>
      cases e
      simp [extractRow, hc0]
    | ok q =>
      have hkk : k ≠ k0 := by
        intro he
        rw [he, hc0] at hc
        cases hc
      have hk' : k ∈ ks := by
        cases hk with
        | head => exact absurd rfl hkk
        | tail _ hmem => exact hmem
      simp [extractRow, hc0, ih hk']

/-- Installing a metric's own default through `_safely_set_vital` keeps it:
every default is inside its validation bounds. -/
theorem safely_set_default (k : VitalKey) :
    safely_set_vital k (some (DEFAULT_VITALS k)) (DEFAULT_VITALS k) = DEFAULT_VITALS k := by
  cases k <;> norm_num [safely_set_vital, DEFAULT_VITALS, pyInt]

/-- Out-of-bounds temperatures are replaced by the default at session install. -/
theorem safely_set_temperature_out (q dflt : ℚ) (h : q < 80 ∨ 120 < q) :
    safely_set_vital VitalKey.temperature (some q) dflt = dflt := by
  simp [safely_set_vital, h]

/-- Integer heart rates outside [0, 300] are replaced by the default at
session install. -/
theorem safely_set_heart_rate_int_out (n : ℤ) (dflt : ℚ)
    (h : (n : ℚ) < 0 ∨ 300 < (n : ℚ)) :
    safely_set_vital VitalKey.heart_rate (some (n : ℚ)) dflt = dflt := by
  simp [safely_set_vital, pyInt_intCast, h]
  intro h1 h2
  have hq1 : (0 : ℚ) ≤ (n : ℚ) := by exact_mod_cast h1
  have hq2 : (n : ℚ) ≤ 300 := by exact_mod_cast h2
  rcases h with h | h <;> linarith

/-- Claim C2 counterexample: the fetched row `rowC2` carries heart_rate 300.7,
which is out of the claimed physiological bound [0, 300], yet neither
`get_latest` nor the session-load pipeline replaces it by the documented
default 55 — Python `int()` truncates it to 300, which passes the bound check
and is kept. This refutes the claim that every out-of-bound field is replaced
by its default. -/
theorem get_latest_bounds_counterexample :
    rowC2 VitalKey.heart_rate = CellValue.numeric 300.7 ∧
    (300 : ℚ) < 300.7 ∧
    findVal VitalKey.heart_rate (get_latest (QueryResult.row rowC2)) = some 300 ∧
    load_session_vitals (QueryResult.row rowC2) VitalKey.heart_rate = 300 ∧
    DEFAULT_VITALS VitalKey.heart_rate = 55 := by
  have hpy : pyInt (300.7 : ℚ) = 300 := by
    unfold pyInt
    rw [if_pos (show (0 : ℚ) ≤ 300.7 by norm_num), Int.floor_eq_iff]
    norm_num
  have hfind : findVal VitalKey.heart_rate (get_latest (QueryResult.row rowC2)) = some 300 := by
    simp [get_latest, allVitalKeys, extractRow, convertCell, rowC2, findVal,
      DEFAULT_VITALS, hpy]
  refine ⟨rfl, by norm_num, hfind, ?_, rfl⟩
  unfold load_session_vitals
  rw [hfind]
  have hpy300 : pyInt (300 : ℚ) = 300 := by
    unfold pyInt
    rw [if_pos (show (0 : ℚ) ≤ 300 by norm_num)]
    norm_num
  norm_num [safely_set_vital, DEFAULT_VITALS, hpy300]
  decide

/-- Claim C2 (amended): `get_latest` replaces each field of the fetched row
that is missing or non-numeric by that field's documented default (in
particular a row missing `heart_rate` yields `heart_rate = 55`) without
raising, and on any endpoint failure returns the full set of defaults; the
physiological-bound substitution is applied not by `get_latest` but one step
later, when `initialize_if_needed` installs the loaded values into the
session through `_safely_set_vital`, and it applies to the type-converted
value: a temperature outside [80, 120] and an integer-truncated heart rate
outside [0, 300] are replaced by their defaults. -/
theorem get_latest_defaults_amended (r : VitalKey → CellValue) :
    (∀ k : VitalKey, r k = CellValue.missing →
        findVal k (get_latest (QueryResult.row r)) = some (DEFAULT_VITALS k) ∧
        load_session_vitals (QueryResult.row r) k = DEFAULT_VITALS k) ∧
    (∀ k : VitalKey, r k = CellValue.nonNumeric →
        findVal k (get_latest (QueryResult.row r)) = some (DEFAULT_VITALS k) ∧
        load_session_vitals (QueryResult.row r) k = DEFAULT_VITALS k) ∧
    (∀ q : ℚ, r VitalKey.temperature = CellValue.numeric q → (q < 80 ∨ 120 < q) →
        load_session_vitals (QueryResult.row r) VitalKey.temperature =
          DEFAULT_VITALS VitalKey.temperature) ∧
    (∀ q : ℚ, r VitalKey.heart_rate = CellValue.numeric q →
        (((pyInt q : ℤ) : ℚ) < 0 ∨ 300 < ((pyInt q : ℤ) : ℚ)) →
        load_session_vitals (QueryResult.row r) VitalKey.heart_rate =
          DEFAULT_VITALS VitalKey.heart_rate) ∧
    (get_latest QueryResult.error = defaultsList ∧
      ∀ k : VitalKey, load_session_vitals QueryResult.error k = DEFAULT_VITALS k) := by
  refine ⟨?_, ?_, ?_, ?_, rfl, ?_⟩
  · intro k hk
    have hfind : findVal k (get_latest (QueryResult.row r)) = some (DEFAULT_VITALS k) := by
      rcases findVal_get_latest_row r k with hf | hf
      · rw [hf, hk]; rfl
      · rw [hf]; exact findVal_defaultsList k
    exact ⟨hfind, by unfold load_session_vitals; rw [hfind]; exact safely_set_default k⟩
  · intro k hk
    have hext : extractRow allVitalKeys r = Except.error () :=
      extractRow_error_of_mem allVitalKeys r k (mem_allVitalKeys k) (by rw [hk]; rfl)
    have hg : get_latest (QueryResult.row r) = defaultsList := by
      simp [get_latest, hext]
    refine ⟨by rw [hg]; exact findVal_defaultsList k, ?_⟩
    unfold load_session_vitals
    rw [hg, findVal_defaultsList]
    exact safely_set_default k
  · intro q hq hout
    unfold load_session_vitals
    rcases findVal_get_latest_row r VitalKey.temperature with hf | hf
    · rw [hf, hq]
      exact safely_set_temperature_out q _ hout
    · rw [hf, findVal_defaultsList]
      exact safely_set_default VitalKey.temperature
  · intro q hq hout
    unfold load_session_vitals
    rcases findVal_get_latest_row r VitalKey.heart_rate with hf | hf
    · rw [hf, hq]
      have hcell : (convertCell VitalKey.heart_rate (CellValue.numeric q)).toOption =
          some ((pyInt q : ℤ) : ℚ) := rfl
      rw [hcell]
      exact safely_set_heart_rate_int_out (pyInt q) _ hout
    · rw [hf, findVal_defaultsList]
      exact safely_set_default VitalKey.heart_rate
  · intro k
    unfold load_session_vitals
    have hg : get_latest QueryResult.error = defaultsList := rfl
    rw [hg, findVal_defaultsList]
    exact safely_set_default k

/-- Witness for the amended claim C2: on the concrete row `rowW` (temperature
130, heart rate absent) the session gets the default temperature 97.5 and
`get_latest` substitutes the default heart rate 55; on the concrete row
`rowNN` (systolic non-numeric) the systolic field gets its default 125. -/
theorem get_latest_defaults_amended_witness :
    load_session_vitals (QueryResult.row rowW) VitalKey.temperature =
      DEFAULT_VITALS VitalKey.temperature ∧
    findVal VitalKey.heart_rate (get_latest (QueryResult.row rowW)) =
      some (DEFAULT_VITALS VitalKey.heart_rate) ∧
    findVal VitalKey.systolic (get_latest (QueryResult.row rowNN)) =
      some (DEFAULT_VITALS VitalKey.systolic) :=
  ⟨(get_latest_defaults_amended rowW).2.2.1 130 rfl (Or.inr (by norm_num)),
   ((get_latest_defaults_amended rowW).1 VitalKey.heart_rate rfl).1,
   ((get_latest_defaults_amended rowNN).2.1 VitalKey.systolic rfl).1⟩
